import Mathlib

/-!
Shallow embedding of the Q-guard payment gateway core (Rust) in Lean 4,
with theorems settling the specification claims about it.

Sources embedded:
* `src/services/cache.rs`      — `CacheService` (tiered cache)
* `src/services/reputation.rs` — `ReputationService` (trust scores and pricing)
* `src/middleware/x402.rs`     — `X402Middleware` (payment verification)
* `src/error.rs`               — `QGuardError` and the challenge response
* `src/services/ethereum.rs`   — `EthereumService` (gas prediction)

Modelling conventions:
* Rust `u64`/`i64`/`U256` become `Nat`/`Int` with explicit bounds where
  overflow or panics matter (`U256::as_u64` is embedded as an `Option`).
* Fallible operations return `Except`; a Rust panic is a distinguished
  `VOutcome.panic` constructor.
* Wall-clock time is an explicit `now : Nat` parameter (seconds).
* `f64` arithmetic is embedded as exact rational arithmetic (`ℚ`) except in
  `parse_usd_to_cents`, where the rounding of IEEE-754 doubles is itself the
  property under study and is modelled exactly (`f64round`).
-/

namespace QGuard

/-! ## Tiered cache (`src/services/cache.rs`) -/

/-- One entry of the in-process (moka) tier: the serialized value and the
absolute time at which it expires. -/
structure MemEntry where
  value : String
  expiresAt : Nat
  deriving Repr, DecidableEq

/-- The in-process tier: an association list of live entries.
(The moka capacity bound of 1000 entries is not modelled; no claim is about
capacity eviction.) -/
structure MemoryCache where
  entries : List (String × MemEntry)
  deriving Repr, DecidableEq

/-- The fixed time-to-live of the in-process tier, from `CacheService::new`:
`Cache::builder().time_to_live(Duration::from_secs(60))`. -/
def MEMORY_TTL : Nat := 60

/-- Embedding of `moka` lookup: a stored entry is returned while it has not expired. -/
def MemoryCache.get (m : MemoryCache) (now : Nat) (key : String) : Option String :=
  match m.entries.find? (fun p => p.1 == key) with
  | some (_, e) => if now < e.expiresAt then some e.value else none
  | none => none

/-- Embedding of `moka` insert: replaces any previous entry for the key; the expiry is the
cache-wide fixed TTL set at construction (`MEMORY_TTL`), since
`moka::future::Cache::insert` takes no per-entry TTL. -/
def MemoryCache.insert (m : MemoryCache) (now : Nat) (key value : String) : MemoryCache :=
  ⟨(key, ⟨value, now + MEMORY_TTL⟩) :: m.entries.filter (fun p => p.1 ≠ key)⟩

/-- The durable (Redis) tier: a key/value store with per-entry expiry, an
integer counter table, and a health flag; when `healthy` is false every
operation on it fails (connection errors). -/
structure RedisState where
  store : List (String × String × Nat)
  counters : List (String × Int)
  healthy : Bool
  deriving Repr, DecidableEq

/-- Redis `GET`: returns the stored string while unexpired; an unhealthy
connection yields an error. -/
def RedisState.get (r : RedisState) (now : Nat) (key : String) :
    Except String (Option String) :=
  if r.healthy then
    match r.store.find? (fun p => p.1 == key) with
    | some (_, v, exp) => if now < exp then .ok (some v) else .ok none
    | none => .ok none
  else .error "connection refused"

/-- Redis `SET key value EX ttl`. -/
def RedisState.setEx (r : RedisState) (now : Nat) (key value : String) (ttl : Nat) :
    Except String RedisState :=
  if r.healthy then
    .ok ⟨(key, value, now + ttl) :: r.store.filter (fun p => p.1 ≠ key), r.counters, true⟩
  else .error "connection refused"

/-- Redis `INCRBY key delta`: atomic add on the counter, starting from 0. -/
def RedisState.incr (r : RedisState) (key : String) (delta : Int) :
    Except String (Int × RedisState) :=
  if r.healthy then
    let newVal := ((r.counters.find? (fun p => p.1 == key)).map Prod.snd).getD 0 + delta
    .ok (newVal, ⟨r.store, (key, newVal) :: r.counters.filter (fun p => p.1 ≠ key), true⟩)
  else .error "connection refused"

/-- Embedding of `CacheService`: the optional durable tier (`None` when the connection
could not be established at startup) and the in-process tier. -/
structure CacheService where
  redis : Option RedisState
  memory : MemoryCache
  deriving Repr, DecidableEq

/-- The durable-tier half of `CacheService::get`: consulted after an
in-process miss.  A Redis hit that deserializes repopulates the in-process
tier before returning; a Redis miss, deserialization failure, error, or
absent connection all end in `Ok(None)`. -/
def CacheService.getFromRedis {T : Type} (c : CacheService) (now : Nat)
    (decode : String → Option T) (key : String) :
    Except String (Option T) × CacheService :=
  match c.redis with
  | some rs =>
    match rs.get now key with
    | .ok (some cached) =>
      match decode cached with
      | some value => (.ok (some value), { c with memory := c.memory.insert now key cached })
      | none => (.ok none, c)
    | .ok none => (.ok none, c)
    | .error _ => (.ok none, c)
  | none => (.ok none, c)

/-- Embedding of `CacheService::get`: in-process tier first; on a miss (or a value that
fails to deserialize) the durable tier; `decode` embeds
`serde_json::from_str::<T>`.  Returns the result together with the updated
service state. -/
def CacheService.get {T : Type} (c : CacheService) (now : Nat)
    (decode : String → Option T) (key : String) :
    Except String (Option T) × CacheService :=
  match c.memory.get now key with
  | some cached =>
    match decode cached with
    | some value => (.ok (some value), c)
    | none => c.getFromRedis now decode key
  | none => c.getFromRedis now decode key

/-- Embedding of `CacheService::set`: writes the serialized value to the in-process tier
(whose expiry is the fixed construction-time TTL) and, when the durable tier
is present and reachable, to Redis with the caller-supplied `ttl_secs`; a
Redis failure is logged and swallowed. -/
def CacheService.set (c : CacheService) (now : Nat) (key serialized : String)
    (ttl_secs : Nat) : Except String Unit × CacheService :=
  let memory := c.memory.insert now key serialized
  match c.redis with
  | some rs =>
    match rs.setEx now key serialized ttl_secs with
    | .ok rs' => (.ok (), ⟨some rs', memory⟩)
    | .error _ => (.ok (), ⟨some rs, memory⟩)
  | none => (.ok (), ⟨none, memory⟩)

/-- Embedding of `CacheService::increment`: `INCRBY` on the durable tier; on a Redis error
or an absent durable tier it returns `Ok(delta)`. -/
def CacheService.increment (c : CacheService) (key : String) (delta : Int) :
    Except String Int × CacheService :=
  match c.redis with
  | some rs =>
    match rs.incr key delta with
    | .ok (value, rs') => (.ok value, ⟨some rs', c.memory⟩)
    | .error _ => (.ok delta, c)
  | none => (.ok delta, c)

/-- Embedding of `CacheService::ping`: liveness probe of the durable tier only. -/
def CacheService.ping (c : CacheService) : Except String Bool :=
  match c.redis with
  | some rs => if rs.healthy then .ok true else .ok false
  | none => .ok false

/-! ## Reputation service (`src/services/reputation.rs`) -/

/-- The mock reputation table built in `ReputationService::new` (used when no
registry contract address is configured); addresses are 160-bit numbers. -/
def mock_reputations : List (Nat × Nat) :=
  [(0x1111111111111111111111111111111111111111, 100),
   (0x2222222222222222222222222222222222222222, 500),
   (0x3333333333333333333333333333333333333333, 1000)]

/-- Default reputation used when the registry call fails or the mock table has
no entry for the agent. -/
def DEFAULT_REPUTATION : Nat := 250

/-- TTL (seconds) with which a resolved reputation is cached: "Cache for 1 hour". -/
def REPUTATION_TTL : Nat := 3600

/-- Environment of one `get_reputation` call: the result of the reputation
cache read for this agent's key, and the registry contract call. -/
structure RepEnv where
  cacheGet : Except String (Option Nat)
  registryCall : Nat → Except String Nat

/-- The effect of `.ok().flatten()` applied to a cache read: an error is indistinguishable
from a miss. -/
def cacheHit? (e : Except String (Option Nat)) : Option Nat :=
  match e with
  | .ok (some v) => some v
  | _ => none

/-- Embedding of `ReputationService::get_reputation`.  Returns the resolved score together
with the cache write performed (`some (value, ttl)` on a cache miss, `none` on
a cache hit). -/
def get_reputation (env : RepEnv) (registry_address : Option Nat) (agent : Nat) :
    Nat × Option (Nat × Nat) :=
  match cacheHit? env.cacheGet with
  | some cached => (cached, none)
  | none =>
    let reputation :=
      match registry_address with
      | some _ =>
        match env.registryCall agent with
        | .ok rep => rep
        | .error _ => DEFAULT_REPUTATION
      | none =>
        ((mock_reputations.find? (fun p => p.1 == agent)).map Prod.snd).getD
          DEFAULT_REPUTATION
    (reputation, some (reputation, REPUTATION_TTL))

/-- The largest finite `f64` value, `f64::MAX` = (2^53 − 1)·2^971: the
sentinel returned by `calculate_price` for denied scores. -/
def f64MAX : ℚ := (2 ^ 53 - 1) * 2 ^ 971

/-- Embedding of `ReputationService::calculate_price`.  The `f64` products
`base_price * 0.8` and `base_price * 0.5` are idealized as exact rational
products (the claims about this function concern the tier partition, not
floating-point rounding). -/
def calculate_price (base_price : ℚ) (reputation : Nat) : ℚ :=
  if reputation ≤ 99 then f64MAX
  else if reputation ≤ 500 then base_price
  else if reputation ≤ 1000 then base_price * (8 / 10)
  else base_price * (5 / 10)

/-! ## Exact model of the IEEE-754 double rounding used by
`X402Middleware::parse_usd_to_cents` (`src/middleware/x402.rs`).

`parse_usd_to_cents` parses the configured USD string with
`str::parse::<f64>` (correctly rounded to the nearest double), multiplies by
the literal `100.0` (one IEEE multiplication, round to nearest, ties to
even), and casts with `as u64` (truncation toward zero).  The model below
performs that rounding exactly on rationals; it covers the normal finite
range of `f64` (no overflow or subnormals arise at the magnitudes of USD
price strings). -/

/-- Round a rational to the nearest integer, ties to even (the IEEE-754
default rounding direction). -/
def rne (x : ℚ) : Int :=
  let n := ⌊x⌋
  let f := x - n
  if f < 1 / 2 then n
  else if 1 / 2 < f then n + 1
  else if n % 2 = 0 then n else n + 1

/-- Round a positive rational to the nearest `f64` (53-bit significand,
normal range): the nearest integer multiple, ties to even, of the unit in
the last place of its binade (`Int.log 2 q` is the binade exponent). -/
def f64roundPos (q : ℚ) : ℚ :=
  let u : ℚ := 2 ^ (Int.log 2 q - 52)
  (rne (q / u) : ℚ) * u

/-- Round a rational to the nearest `f64` (normal range; rounding is
symmetric in sign). -/
def f64round (q : ℚ) : ℚ :=
  if q = 0 then 0
  else if q < 0 then -f64roundPos (-q) else f64roundPos q

/-- Embedding of `X402Middleware::parse_usd_to_cents` applied to a USD string whose exact
decimal value is `q`: `let dollars: f64 = cleaned.parse()` yields the nearest
double to `q`; `(dollars * 100.0) as u64` performs one rounded IEEE
multiplication and truncates toward zero (negative values clamp to 0, as the
Rust float-to-int cast saturates). -/
def parse_usd_to_cents (q : ℚ) : Nat :=
  ⌊f64round (f64round q * 100)⌋.toNat

/-- The same conversion in exact integer/decimal arithmetic, as the spec
states it: the USD value taken to cents with floor rounding and no floating
point. -/
def usd_to_cents_exact (q : ℚ) : Nat :=
  ⌊q * 100⌋.toNat

/-! ## Payment verification (`src/middleware/x402.rs`)

Addresses are 160-bit numbers, 256-bit words (`H256`, `U256`) are `Nat`s
below 2^256. -/

/-- One EVM event log: 32-byte topics and the raw data bytes. -/
structure EvmLog where
  topics : List Nat
  data : List Nat
  deriving Repr, DecidableEq

/-- A transaction execution receipt: the status field and the event logs. -/
structure TransactionReceipt where
  status : Option Nat
  logs : List EvmLog
  deriving Repr, DecidableEq

/-- The fields of a fetched transaction used by verification. -/
structure EthTransaction where
  fromAddr : Nat
  toAddr : Option Nat
  deriving Repr, DecidableEq

/-- Embedding of `Address::from(h256)`: the low 20 bytes of a 32-byte word. -/
def addressOfTopic (t : Nat) : Nat := t % 2 ^ 160

/-- Embedding of `U256::from_big_endian`: big-endian byte decoding. -/
def fromBigEndian (bytes : List Nat) : Nat :=
  bytes.foldl (fun acc b => acc * 256 + b) 0

/-- Embedding of `U256::as_u64`: the value when it fits in 64 bits; `none` models the
panic `"Integer overflow when casting to u64"` otherwise. -/
def as_u64 (v : Nat) : Option Nat :=
  if v < 2 ^ 64 then some v else none

/-- keccak256("Transfer(address,address,uint256)"), the ERC-20 transfer event
signature hard-coded in `parse_usdc_transfer`. -/
def TRANSFER_TOPIC : Nat :=
  0xddf252ad1be2c89b69c2b068fc378daa952ba7f163c4a11628f55a4df523b3ef

/-- The decoded transfer event (`USDCTransfer` in the source). -/
structure USDCTransfer where
  fromAddr : Nat
  toAddr : Nat
  amount : Nat
  deriving Repr, DecidableEq

/-- Stand-in for the `Display` rendering of an `Address` used inside reason
strings; the claims depend only on which reason is produced, never on the
rendering of an embedded address. -/
def addrDisplay (a : Nat) : String := toString a

/-- Embedding of `X402Middleware::parse_usdc_transfer`: the first log whose first topic is
the transfer signature and which has at least 3 topics; sender and recipient
are decoded from the indexed topics, the amount from the data bytes.  No such
log is the error `InvalidPaymentProof("No USDC transfer found in transaction")`. -/
def parse_usdc_transfer : List EvmLog → Except String USDCTransfer
  | [] => .error "No USDC transfer found in transaction"
  | log :: rest =>
    if log.topics.head? = some TRANSFER_TOPIC ∧ 3 ≤ log.topics.length then
      .ok ⟨addressOfTopic (log.topics.getD 1 0), addressOfTopic (log.topics.getD 2 0),
           fromBigEndian log.data⟩
    else parse_usdc_transfer rest

/-- The configuration of one `X402Middleware` instance.
`expected_amount_usd` is the raw configured string; `usd_value` is the exact
decimal value that string denotes (`none` when it is not a number, in which
case `parse_usd_to_cents` fails with `ConfigError`) — the string-to-decimal
reading itself is not re-modelled. -/
structure X402Config where
  recipient_address : Nat
  usdc_address : Nat
  expected_amount_usd : String
  usd_value : Option ℚ

/-- The chain data source seen by one verification: receipt and transaction
lookup by hash, each possibly failing (RPC error) or empty (not found). -/
structure ChainEnv where
  getReceipt : Nat → Except String (Option TransactionReceipt)
  getTransaction : Nat → Except String (Option EthTransaction)

/-- The result record built by `verify_transaction`. -/
structure PaymentVerification where
  valid : Bool
  tx_hash : Nat
  reason : String
  payer : Nat
  amount : String
  deriving Repr, DecidableEq

/-- The errors produced along the payment path of `QGuardError`
(`src/error.rs`); constructors not reachable from this path are omitted. -/
inductive QGuardError where
  | PaymentRequired (amount : String)
  | PaymentVerificationFailed (msg : String)
  | InvalidPaymentProof (msg : String)
  | ConfigError (msg : String)
  | RpcError (msg : String)
  | AnyhowError (msg : String)
  deriving Repr, DecidableEq

/-- Result of a Rust `Result<α, QGuardError>` computation that can also
panic. -/
inductive VOutcome (α : Type) where
  | ok (v : α)
  | err (e : QGuardError)
  | panic
  deriving Repr, DecidableEq

/-- Whether an outcome is a success (`Ok`). -/
def VOutcome.isOk {α : Type} : VOutcome α → Bool
  | .ok _ => true
  | _ => false

/-- Embedding of `X402Middleware::verify_transaction`.  The order of effects follows the
source: receipt fetch, status check, transaction fetch, target-contract
check, transfer-log decoding, recipient check, expected-amount parse,
`as_u64` conversion (panic on ≥ 2^64), and the integer cents comparison. -/
def verify_transaction (cfg : X402Config) (env : ChainEnv) (tx_hash : Nat) :
    VOutcome PaymentVerification :=
  match env.getReceipt tx_hash with
  | .error e => .err (.PaymentVerificationFailed ("RPC error: " ++ e))
  | .ok none => .err (.PaymentVerificationFailed "Transaction not found")
  | .ok (some receipt) =>
    if receipt.status ≠ some 1 then
      .ok ⟨false, tx_hash, "Transaction failed", 0, "0"⟩
    else
      match env.getTransaction tx_hash with
      | .error e => .err (.PaymentVerificationFailed ("RPC error: " ++ e))
      | .ok none => .err (.PaymentVerificationFailed "Transaction not found")
      | .ok (some tx) =>
        if tx.toAddr ≠ some cfg.usdc_address then
          .ok ⟨false, tx_hash, "Transaction not to USDC contract", tx.fromAddr, "0"⟩
        else
          match parse_usdc_transfer receipt.logs with
          | .error e => .err (.InvalidPaymentProof e)
          | .ok transfer =>
            if transfer.toAddr ≠ cfg.recipient_address then
              .ok ⟨false, tx_hash, "Payment to wrong address: " ++ addrDisplay transfer.toAddr,
                   transfer.fromAddr, toString transfer.amount⟩
            else
              match cfg.usd_value with
              | none => .err (.ConfigError ("Invalid USD amount: " ++ cfg.expected_amount_usd))
              | some q =>
                let expected_amount_cents := parse_usd_to_cents q
                match as_u64 transfer.amount with
                | none => .panic
                | some a64 =>
                  let actual_amount_cents := a64 / 10000
                  if actual_amount_cents < expected_amount_cents then
                    .ok ⟨false, tx_hash,
                         "Insufficient payment: " ++ toString actual_amount_cents ++ " < " ++
                           toString expected_amount_cents,
                         transfer.fromAddr, toString transfer.amount⟩
                  else
                    .ok ⟨true, tx_hash, "Payment verified", transfer.fromAddr,
                         toString transfer.amount⟩

/-- Embedding of `str::trim_start_matches("0x")`: strips every leading `0x` occurrence. -/
def trim0xList : List Char → List Char
  | '0' :: 'x' :: rest => trim0xList rest
  | l => l

/-- The value of a hexadecimal digit character. -/
def hexDigit? (c : Char) : Option Nat :=
  if '0' ≤ c ∧ c ≤ '9' then some (c.toNat - '0'.toNat)
  else if 'a' ≤ c ∧ c ≤ 'f' then some (c.toNat - 'a'.toNat + 10)
  else if 'A' ≤ c ∧ c ≤ 'F' then some (c.toNat - 'A'.toNat + 10)
  else none

/-- Embedding of `H256::from_str`: exactly 64 hexadecimal digits, decoded big-endian;
anything else is a parse error. -/
def parseH256 (s : List Char) : Option Nat :=
  if s.length = 64 then
    (s.mapM hexDigit?).map (·.foldl (fun acc d => acc * 16 + d) 0)
  else none

/-- Embedding of `X402Middleware::verify_payment_header`: an absent header is
`PaymentRequired` carrying the configured amount string; a malformed hash is
`InvalidPaymentProof`; then the on-chain verification, whose invalid result
becomes `PaymentVerificationFailed` with the recorded reason.  (The
best-effort facilitator report after success is fire-and-forget — `.ok()` —
and does not affect the returned value.) -/
def verify_payment_header (cfg : X402Config) (env : ChainEnv)
    (payment_header : Option String) : VOutcome PaymentVerification :=
  match payment_header with
  | none => .err (.PaymentRequired cfg.expected_amount_usd)
  | some proof =>
    match parseH256 (trim0xList proof.data) with
    | none => .err (.InvalidPaymentProof "Invalid tx hash")
    | some tx_hash =>
      match verify_transaction cfg env tx_hash with
      | .panic => .panic
      | .err e => .err e
      | .ok verification =>
        if verification.valid then .ok verification
        else .err (.PaymentVerificationFailed verification.reason)

/-! ## Error responses and challenge instructions (`src/error.rs`) -/

/-- Embedding of `PaymentDetails`: the `payment` block of the challenge body. -/
structure PaymentDetails where
  chain : String
  asset : String
  amount : String
  recipient : String
  facilitator : String
  deriving Repr, DecidableEq

/-- Embedding of `PaymentFormat`: the `instructions` block of the challenge body (header
name and encoding for resubmission). -/
structure PaymentFormat where
  header : String
  format : String
  deriving Repr, DecidableEq

/-- Embedding of `PaymentInstructions`: the full challenge-instructions body. -/
structure PaymentInstructions where
  type_ : String
  version : String
  payment : PaymentDetails
  instructions : PaymentFormat
  deriving Repr, DecidableEq

/-- Embedding of `create_payment_instructions`.  The recipient and facilitator are read
from the process environment (`RECIPIENT_ADDRESS`, `FACILITATOR_URL`, with
defaults); they are passed here as parameters. -/
def create_payment_instructions (amount recipient facilitator : String) :
    PaymentInstructions :=
  { type_ := "x402.payment_required"
    version := "1.0.0"
    payment :=
      { chain := "base-sepolia"
        asset := "USDC"
        amount := amount
        recipient := recipient
        facilitator := facilitator }
    instructions :=
      { header := "X-Payment"
        format := "transaction_hash" } }

/-- The response-relevant part of `IntoResponse for QGuardError`: HTTP status
code, machine-readable error code, and the optional challenge instructions
(present exactly for `PaymentRequired`). -/
def into_response (e : QGuardError) (recipient facilitator : String) :
    Nat × String × Option PaymentInstructions :=
  match e with
  | .PaymentRequired amount =>
    (402, "PAYMENT_REQUIRED", some (create_payment_instructions amount recipient facilitator))
  | .PaymentVerificationFailed _ => (402, "PAYMENT_VERIFICATION_FAILED", none)
  | .InvalidPaymentProof _ => (400, "INVALID_PAYMENT_PROOF", none)
  | .RpcError _ => (502, "UPSTREAM_ERROR", none)
  | .ConfigError _ => (500, "INTERNAL_ERROR", none)
  | .AnyhowError _ => (500, "INTERNAL_ERROR", none)

/-! ## Gas prediction engine (`src/services/ethereum.rs`)

The `f64` arithmetic of the prediction formulas is idealized as exact
rationals; `f64::sqrt` is modelled by `sqrtQ`, exact on rationals whose
numerator and denominator are perfect squares (every concrete use below has
variance 0). -/

/-- The block fields the prediction reads. -/
structure EthBlock where
  number : Option Nat
  base_fee_per_gas : Option Nat
  deriving Repr, DecidableEq

/-- The prediction record (`GasPrediction` in `src/models/gas.rs`); the
wall-clock `predicted_at` timestamp is omitted. -/
structure GasPrediction where
  base_fee_gwei : ℚ
  priority_fee_gwei : ℚ
  max_fee_gwei : ℚ
  confidence : ℚ
  block_number : Nat
  next_block_time_seconds : Nat
  deriving Repr, DecidableEq

/-- Square root on rationals, exact when numerator and denominator are
perfect squares (stand-in for `f64::sqrt`). -/
def sqrtQ (q : ℚ) : ℚ :=
  (Nat.sqrt q.num.toNat : ℚ) / (Nat.sqrt q.den : ℚ)

/-- Embedding of `EthereumService::generate_exponential_weights`: decay 0.95 per step into
the past, most recent block weighted highest, normalized to sum to 1. -/
def generate_exponential_weights (n : Nat) : List ℚ :=
  let decay : ℚ := 19 / 20
  let weights := (List.range n).reverse.map (fun i => decay ^ i)
  let s := weights.sum
  weights.map (fun w => w / s)

/-- Embedding of `EthereumService::calculate_confidence`: 0.5 with fewer than two base-fee
samples, else `clamp(1 / (1 + stddev/mean), 0, 1)` where the variance is the
population variance of the per-block base fees (in gwei) around `mean`. -/
def calculate_confidence (blocks : List EthBlock) (mean : ℚ) : ℚ :=
  let base_fees := blocks.filterMap (fun b => b.base_fee_per_gas.map (fun f => (f : ℚ) / 10 ^ 9))
  if base_fees.length < 2 then 1 / 2
  else
    let variance := (base_fees.map (fun fee => (fee - mean) * (fee - mean))).sum /
      (base_fees.length : ℚ)
    let std_dev := sqrtQ variance
    let confidence := 1 / (1 + std_dev / mean)
    min (max confidence 0) 1

/-- Embedding of `EthereumService::calculate_prediction`: exponential weights over the
fetched blocks, weighted mean of the available base fees (blocks without a
base fee contribute nothing), a 2-gwei priority fee, a 20% buffer on the max
fee, and the confidence score.  `blocks.last().unwrap().number.unwrap()`
panics (`none`) on an empty slice or a pending block without a number. -/
def calculate_prediction (blocks : List EthBlock) : Option GasPrediction :=
  let n := blocks.length
  let weights := generate_exponential_weights n
  let weighted_base_fee : ℚ :=
    ((blocks.zip weights).filterMap
      (fun bw => bw.1.base_fee_per_gas.map (fun fee => ((fee : ℚ) / 10 ^ 9) * bw.2))).sum
  let priority_fee_gwei : ℚ := 2
  let max_fee_gwei := weighted_base_fee * (12 / 10) + priority_fee_gwei
  let confidence := calculate_confidence blocks weighted_base_fee
  match blocks.getLast? with
  | none => none
  | some lastBlock =>
    match lastBlock.number with
    | none => none
    | some bn =>
      some ⟨weighted_base_fee, priority_fee_gwei, max_fee_gwei, confidence, bn, 12⟩

/-- The chain data source seen by the prediction engine, after the internal
primary→fallback switch: the latest block number, and each block fetch
(`Err` = both endpoints failed, `Ok none` = block not found). -/
structure GasEnv where
  blockNumber : Except String Nat
  getBlock : Nat → Except String (Option EthBlock)

/-- The loop body of `EthereumService::fetch_blocks`: found blocks are
accumulated in order; a not-found block is skipped; a fetch error breaks out
of the loop when at least 10 blocks have been collected and is otherwise
skipped. -/
def fetchLoop (env : GasEnv) : List Nat → List EthBlock → List EthBlock
  | [], acc => acc
  | n :: ns, acc =>
    match env.getBlock n with
    | .ok (some b) => fetchLoop env ns (acc ++ [b])
    | .ok none => fetchLoop env ns acc
    | .error _ => if 10 ≤ acc.length then acc else fetchLoop env ns acc

/-- Embedding of `EthereumService::fetch_blocks` over the inclusive range
`start..=finish`; it never returns an error. -/
def fetch_blocks (env : GasEnv) (start finish : Nat) : List EthBlock :=
  fetchLoop env (List.range' start (finish + 1 - start)) []

/-- Embedding of `EthereumService::get_gas_prediction`.  `cached` is the result of the
12-second-TTL cache read (`.ok().flatten()` makes cache errors misses); on a
miss, the last 20 block numbers (`latest.saturating_sub(19) ..= latest`) are
fetched, an empty result is the error `"No blocks fetched"`, and otherwise
the prediction is computed (the final cache write cannot fail: serialization
of a `GasPrediction` always succeeds and Redis errors are swallowed). -/
def get_gas_prediction (env : GasEnv) (cached : Option GasPrediction) :
    VOutcome GasPrediction :=
  match cached with
  | some p => .ok p
  | none =>
    match env.blockNumber with
    | .error e => .err (.AnyhowError e)
    | .ok latest =>
      let start := latest - 19
      let blocks := fetch_blocks env start latest
      if blocks.isEmpty then .err (.RpcError "No blocks fetched")
      else
        match calculate_prediction blocks with
        | none => .panic
        | some prediction => .ok prediction

/-! ## Concrete fixtures used by the closed theorems below -/

/-- A gate configured to charge `$0.29` (`29/100` is the decimal value the
string denotes); recipient `0xabc`, asset contract `0xdef`. -/
def cfg29 : X402Config := ⟨0xabc, 0xdef, "0.29", some (29/100)⟩

/-- A successful receipt containing one transfer event of 280000 smallest
units (`0x0445C0` big-endian) from `0x123` to the configured recipient. -/
def receipt29 : TransactionReceipt :=
  ⟨some 1, [⟨[TRANSFER_TOPIC, 0x123, 0xabc], [0x04, 0x45, 0xC0]⟩]⟩

/-- A chain on which every hash resolves to `receipt29` and a transaction
sent to the configured asset contract. -/
def env29 : ChainEnv :=
  ⟨fun _ => .ok (some receipt29), fun _ => .ok (some ⟨0x123, some 0xdef⟩)⟩

/-- A gate configured to charge `$0.01` (the gas-prediction endpoint price in
`main.rs`). -/
def cfg01 : X402Config := ⟨0xabc, 0xdef, "0.01", some (1/100)⟩

/-- A chain on which no transaction exists. -/
def envEmpty : ChainEnv := ⟨fun _ => .ok none, fun _ => .ok none⟩

/-- A reputation environment in which the cache read errors and every
registry contract call fails. -/
def repEnvFail : RepEnv := ⟨.error "redis down", fun _ => .error "contract call failed"⟩

/-- A reputation environment with a cache hit of 777. -/
def repEnvHit : RepEnv := ⟨.ok (some 777), fun _ => .error "contract call failed"⟩

/-- A decoder accepting exactly the serialized value `"7"`. -/
def decode7 : String → Option Nat := fun s => if s = "7" then some 7 else none

/-- A cache whose in-process tier is empty and whose durable tier holds
`"k" ↦ "7"` (expiring at 100). -/
def cacheRedis7 : CacheService := ⟨some ⟨[("k", "7", 100)], [], true⟩, ⟨[]⟩⟩

/-- A cache whose durable tier is unreachable and whose in-process tier is
empty. -/
def cacheDown : CacheService := ⟨some ⟨[], [], false⟩, ⟨[]⟩⟩

/-- A malformed payment header (not a 64-digit hex string). -/
def pBad : String := "zz"

/-- A well-formed payment header: the 64-digit hex encoding of hash 7. -/
def p64 : String := "0000000000000000000000000000000000000000000000000000000000000007"

/-- A chain on which the referenced transaction executed unsuccessfully
(status 0). -/
def envFailed : ChainEnv := ⟨fun _ => .ok (some ⟨some 0, []⟩), fun _ => .ok none⟩

/-- A chain on which the transaction's target is not the configured asset
contract. -/
def envWrongContract : ChainEnv :=
  ⟨fun _ => .ok (some receipt29), fun _ => .ok (some ⟨0x123, some 0x999⟩)⟩

/-- A chain on which the receipt carries no transfer event log. -/
def envNoTransfer : ChainEnv :=
  ⟨fun _ => .ok (some ⟨some 1, []⟩), fun _ => .ok (some ⟨0x123, some 0xdef⟩)⟩

/-- A chain on which the transfer's recipient is not the configured one. -/
def envWrongRecipient : ChainEnv :=
  ⟨fun _ => .ok (some ⟨some 1, [⟨[TRANSFER_TOPIC, 0x123, 0x999], [0x04, 0x45, 0xC0]⟩]⟩),
   fun _ => .ok (some ⟨0x123, some 0xdef⟩)⟩

/-- A chain whose transfer pays only 270000 smallest units (27 cents). -/
def envLow : ChainEnv :=
  ⟨fun _ => .ok (some ⟨some 1, [⟨[TRANSFER_TOPIC, 0x123, 0xabc], [0x04, 0x1E, 0xB0]⟩]⟩),
   fun _ => .ok (some ⟨0x123, some 0xdef⟩)⟩

/-- A receipt whose transfer amount is exactly 2^64 smallest units
(big-endian bytes `01 00 00 00 00 00 00 00 00`), one past `u64::MAX`. -/
def receiptBig : TransactionReceipt :=
  ⟨some 1, [⟨[TRANSFER_TOPIC, 0x123, 0xabc], [1, 0, 0, 0, 0, 0, 0, 0, 0]⟩]⟩

/-- A chain on which every hash resolves to `receiptBig`. -/
def envBig : ChainEnv :=
  ⟨fun _ => .ok (some receiptBig), fun _ => .ok (some ⟨0x123, some 0xdef⟩)⟩

/-- A degraded gas data source: the latest block is 19, blocks 15–19 resolve
(30-gwei base fee), and every fetch of blocks 0–14 errors — only 5 of the 20
most recent blocks are available. -/
def envC9 : GasEnv :=
  ⟨.ok 19, fun n => if 15 ≤ n then .ok (some ⟨some n, some 30000000000⟩)
    else .error "rpc down"⟩

/-- The five blocks `envC9` can deliver. -/
def blocksC9 : List EthBlock :=
  [⟨some 15, some 30000000000⟩, ⟨some 16, some 30000000000⟩,
   ⟨some 17, some 30000000000⟩, ⟨some 18, some 30000000000⟩,
   ⟨some 19, some 30000000000⟩]

/-! ## Theorems -/

/-- The function `Int.log 2` is characterized by the binade inequalities. -/
theorem intLog2_eq {q : ℚ} {n : ℤ} (h1 : (2:ℚ) ^ n ≤ q) (h2 : q < (2:ℚ) ^ (n + 1)) :
    Int.log 2 q = n := by
  have hq : 0 < q := lt_of_lt_of_le (by positivity) h1
  have hb : 1 < (2:ℕ) := by norm_num
  have h1' : ((2:ℕ):ℚ) ^ n ≤ q := by push_cast; exact h1
  have h2' : q < ((2:ℕ):ℚ) ^ (n + 1) := by push_cast; exact h2
  have h3 := (Int.zpow_le_iff_le_log hb hq).1 h1'
  have h4 := (Int.lt_zpow_iff_log_lt hb hq).1 h2'
  omega

/-- The function `rne` rounds down when the fractional part is below one half. -/
theorem rne_eq_of_lt {x : ℚ} {n : ℤ} (h1 : (n:ℚ) ≤ x) (h2 : x < n + 1/2) : rne x = n := by
  have hf : ⌊x⌋ = n := Int.floor_eq_iff.2 ⟨h1, by linarith⟩
  have hlt : x - (⌊x⌋:ℚ) < 1/2 := by rw [hf]; linarith
  simp only [rne]
  rw [if_pos hlt, hf]

/-- The string `0.29` parsed as an `f64` is the double just below `29/100`. -/
theorem f64round_29_100 : f64round ((29:ℚ)/100) = 5224175567749775 * (2:ℚ) ^ (-54:ℤ) := by
  have hlog : Int.log 2 ((29:ℚ)/100) = -2 := by
    apply intLog2_eq
    · norm_num
    · norm_num
  have h0 : ¬((29:ℚ)/100 = 0) := by norm_num
  have hneg : ¬((29:ℚ)/100 < 0) := by norm_num
  simp only [f64round, f64roundPos, if_neg h0, if_neg hneg, hlog]
  have hexp : (-2:ℤ) - 52 = -54 := by norm_num
  rw [hexp]
  have harg : ((29:ℚ)/100) / 2 ^ (-54:ℤ) = 522417556774977536/100 := by norm_num
  rw [harg, rne_eq_of_lt (n := 5224175567749775) (by norm_num) (by norm_num)]
  norm_num

/-- Multiplying the double nearest `0.29` by `100.0` rounds to the double
just below 29 (exact value 28.999999999999996…). -/
theorem f64round_29_prod : f64round ((5224175567749775 * (2:ℚ) ^ (-54:ℤ)) * 100)
    = 8162774324609023 * (2:ℚ) ^ (-48:ℤ) := by
  have hq : (5224175567749775 * (2:ℚ) ^ (-54:ℤ)) * 100
      = 522417556774977500 * (2:ℚ) ^ (-54:ℤ) := by ring
  rw [hq]
  have hlog : Int.log 2 ((522417556774977500:ℚ) * 2 ^ (-54:ℤ)) = 4 := by
    apply intLog2_eq
    · norm_num
    · norm_num
  have h0 : ¬((522417556774977500:ℚ) * 2 ^ (-54:ℤ) = 0) := by norm_num
  have hneg : ¬((522417556774977500:ℚ) * 2 ^ (-54:ℤ) < 0) := by norm_num
  simp only [f64round, f64roundPos, if_neg h0, if_neg hneg, hlog]
  have hexp : (4:ℤ) - 52 = -48 := by norm_num
  rw [hexp]
  have harg : ((522417556774977500:ℚ) * 2 ^ (-54:ℤ)) / 2 ^ (-48:ℤ)
      = 130604389193744375/16 := by norm_num
  rw [harg, rne_eq_of_lt (n := 8162774324609023) (by norm_num) (by norm_num)]
  norm_num

/-- The `f64` computation `("0.29".parse::<f64>() * 100.0) as u64` yields 28,
one cent short of the exact value. -/
theorem parse_usd_to_cents_29 : parse_usd_to_cents (29/100) = 28 := by
  unfold parse_usd_to_cents
  rw [f64round_29_100, f64round_29_prod]
  have hf : ⌊(8162774324609023:ℚ) * 2 ^ (-48:ℤ)⌋ = 28 := by
    rw [Int.floor_eq_iff]
    norm_num
  rw [hf]
  rfl

/-- C1: refuted on the code — the expected charge is computed in `f64`
arithmetic (`parse_usd_to_cents`), not integer arithmetic, and the rounding
differs from exact floor rounding.  With the gate configured to charge
`$0.29`, a transfer of 280000 smallest units (28 cents) is accepted: the
float conversion yields 28 expected cents, while the exact
integer/decimal conversion of `$0.29` is 29 cents, so an amount strictly
below the expected charge is accepted. -/
theorem c1_accepts_below_integer_charge :
    verify_transaction cfg29 env29 7 =
      .ok ⟨true, 7, "Payment verified", 0x123, "280000"⟩ ∧
    parse_usd_to_cents (29/100) = 28 ∧
    usd_to_cents_exact (29/100) = 29 ∧
    280000 / 10000 < usd_to_cents_exact (29/100) := by
  have h := parse_usd_to_cents_29
  have hexact : usd_to_cents_exact (29/100) = 29 := by
    unfold usd_to_cents_exact
    norm_num
    rfl
  refine ⟨?_, h, hexact, by rw [hexact]; norm_num⟩
  simp only [verify_transaction, cfg29, env29, receipt29, parse_usdc_transfer,
    addressOfTopic, fromBigEndian, as_u64, h]
  norm_num
  rfl

/-- C2: the pricing function partitions trust scores exactly as stated —
`[0,100)` denied (the `f64::MAX` sentinel), `[100,500]` full price,
`(500,1000]` 0.8×, `(1000,∞)` 0.5×; the four guards are mutually exclusive
and cover every natural number. -/
theorem c2_price_tier_partition (b : ℚ) (r : Nat) :
    (r < 100 → calculate_price b r = f64MAX) ∧
    (100 ≤ r ∧ r ≤ 500 → calculate_price b r = b) ∧
    (500 < r ∧ r ≤ 1000 → calculate_price b r = (8/10) * b) ∧
    (1000 < r → calculate_price b r = (5/10) * b) := by
  refine ⟨fun h => ?_, fun h => ?_, fun h => ?_, fun h => ?_⟩ <;>
    simp only [calculate_price]
  · rw [if_pos (by omega : r ≤ 99)]
  · rw [if_neg (by omega : ¬ r ≤ 99), if_pos (by omega : r ≤ 500)]
  · rw [if_neg (by omega : ¬ r ≤ 99), if_neg (by omega : ¬ r ≤ 500),
      if_pos (by omega : r ≤ 1000)]
    ring
  · rw [if_neg (by omega : ¬ r ≤ 99), if_neg (by omega : ¬ r ≤ 500),
      if_neg (by omega : ¬ r ≤ 1000)]
    ring

/-- Witness for C2 at the boundary scores 99, 100, 500, 501, 1000, 1001. -/
theorem c2_price_tier_partition_witness :
    calculate_price 3 99 = f64MAX ∧ calculate_price 3 100 = 3 ∧
    calculate_price 3 500 = 3 ∧ calculate_price 3 501 = (8/10) * 3 ∧
    calculate_price 3 1000 = (8/10) * 3 ∧ calculate_price 3 1001 = (5/10) * 3 :=
  ⟨(c2_price_tier_partition 3 99).1 (by norm_num),
   (c2_price_tier_partition 3 100).2.1 ⟨by norm_num, by norm_num⟩,
   (c2_price_tier_partition 3 500).2.1 ⟨by norm_num, by norm_num⟩,
   (c2_price_tier_partition 3 501).2.2.1 ⟨by norm_num, by norm_num⟩,
   (c2_price_tier_partition 3 1000).2.2.1 ⟨by norm_num, by norm_num⟩,
   (c2_price_tier_partition 3 1001).2.2.2 (by norm_num)⟩

/-- C4 (amended): a request with no payment header is rejected as
`PaymentRequired` carrying the endpoint's fixed configured amount string, and
the challenge response carries payment instructions naming the asset
(`USDC`), that configured amount, the recipient, the settlement-facilitator
reference, and the expected header name (`X-Payment`) and encoding
(`transaction_hash`) for resubmission. -/
theorem c4_challenge_instructions (cfg : X402Config) (env : ChainEnv)
    (recipient facilitator : String) :
    verify_payment_header cfg env none = .err (.PaymentRequired cfg.expected_amount_usd) ∧
    into_response (.PaymentRequired cfg.expected_amount_usd) recipient facilitator =
      (402, "PAYMENT_REQUIRED",
        some ⟨"x402.payment_required", "1.0.0",
          ⟨"base-sepolia", "USDC", cfg.expected_amount_usd, recipient, facilitator⟩,
          ⟨"X-Payment", "transaction_hash"⟩⟩) :=
  ⟨rfl, rfl⟩

/-- C4 counterexample: the claim says the challenge amount is "as quoted by
ReputationOracle for this caller", but the emitted amount is the fixed
configured string.  For the `$0.01` endpoint and a caller of trust score
1001, the oracle's effective price is `0.005`, yet the challenge names
`0.01`: the two amounts differ. -/
theorem c4_challenge_amount_not_caller_quote :
    verify_payment_header cfg01 envEmpty none = .err (.PaymentRequired "0.01") ∧
    calculate_price (1/100) 1001 = 1/200 ∧
    (1:ℚ)/100 ≠ 1/200 := by
  refine ⟨rfl, ?_, by norm_num⟩
  simp only [calculate_price]
  norm_num

/-- C5: refuted on the code — with the durable tier absent (or its update
failing) `increment` returns `Ok(delta)`, bit-for-bit identical to what a
genuinely counted first update returns, so the caller cannot distinguish
"counted" from "not counted". -/
theorem c5_increment_fabricates_delta :
    (CacheService.increment ⟨none, ⟨[]⟩⟩ "api_calls" 5).1 = .ok 5 ∧
    (CacheService.increment ⟨some ⟨[], [], false⟩, ⟨[]⟩⟩ "api_calls" 5).1 = .ok 5 ∧
    (CacheService.increment ⟨some ⟨[], [], true⟩, ⟨[]⟩⟩ "api_calls" 5).1 = .ok 5 :=
  ⟨rfl, rfl, rfl⟩

/-- C6: refuted on the code — `set` writes the durable tier with the
caller-supplied TTL, but the in-process tier's expiry is the fixed
construction-time constant (60 s) regardless of the caller's TTL: a
`set(k, v, 3600)` at time 0 leaves an in-process entry expiring at 60 and a
durable entry expiring at 3600, and a `set` with TTL 7 produces the same
in-process expiry. -/
theorem c6_memory_ttl_fixed :
    ((CacheService.set ⟨some ⟨[], [], true⟩, ⟨[]⟩⟩ 0 "k" "v" 3600).2).memory =
      ⟨[("k", ⟨"v", 60⟩)]⟩ ∧
    ((CacheService.set ⟨some ⟨[], [], true⟩, ⟨[]⟩⟩ 0 "k" "v" 3600).2).redis =
      some ⟨[("k", "v", 3600)], [], true⟩ ∧
    ((CacheService.set ⟨some ⟨[], [], true⟩, ⟨[]⟩⟩ 0 "k" "v" 7).2).memory =
      ⟨[("k", ⟨"v", 60⟩)]⟩ ∧
    (60 : Nat) ≠ 3600 :=
  ⟨rfl, rfl, rfl, by norm_num⟩

/-- C8 (amended): trust-score resolution order — the cache is consulted
first (a cache error counting as a miss); on a miss, when a registry is
configured its answer is used, a registry failure falling back directly to
the default neutral score 250 (without consulting the static table); when no
registry is configured the static table is used, defaulting to 250 on a
missing entry; every resolved score is cached with a 1-hour (3600 s) TTL. -/
theorem c8_resolution_chain (env : RepEnv) (registry : Option Nat) (agent : Nat) :
    REPUTATION_TTL = 3600 ∧
    (∀ v, cacheHit? env.cacheGet = some v →
      get_reputation env registry agent = (v, none)) ∧
    (∀ raddr rep, cacheHit? env.cacheGet = none → registry = some raddr →
      env.registryCall agent = .ok rep →
      get_reputation env registry agent = (rep, some (rep, REPUTATION_TTL))) ∧
    (∀ raddr e, cacheHit? env.cacheGet = none → registry = some raddr →
      env.registryCall agent = .error e →
      get_reputation env registry agent =
        (DEFAULT_REPUTATION, some (DEFAULT_REPUTATION, REPUTATION_TTL))) ∧
    (cacheHit? env.cacheGet = none → registry = none →
      get_reputation env registry agent =
        (((mock_reputations.find? (fun p => p.1 == agent)).map Prod.snd).getD
            DEFAULT_REPUTATION,
         some (((mock_reputations.find? (fun p => p.1 == agent)).map Prod.snd).getD
            DEFAULT_REPUTATION, REPUTATION_TTL))) := by
  refine ⟨rfl, ?_, ?_, ?_, ?_⟩
  · intro v hv
    simp only [get_reputation, hv]
  · intro raddr rep hmiss hreg hcall
    simp only [get_reputation, hmiss, hreg, hcall]
  · intro raddr e hmiss hreg hcall
    simp only [get_reputation, hmiss, hreg, hcall]
  · intro hmiss hreg
    simp only [get_reputation, hmiss, hreg]

/-- Witness for C8: a cache hit short-circuits; with a registry configured
and failing, the default 250 is resolved and cached for 3600 s. -/
theorem c8_resolution_chain_witness :
    get_reputation repEnvHit (some 0xabc) 5 = (777, none) ∧
    get_reputation repEnvFail (some 0xabc) 5 = (250, some (250, 3600)) :=
  ⟨(c8_resolution_chain repEnvHit (some 0xabc) 5).2.1 777 rfl,
   (c8_resolution_chain repEnvFail (some 0xabc) 5).2.2.2.1 0xabc "contract call failed"
     rfl rfl rfl⟩

/-- C8 counterexample: the claim's chain "cache → registry → static table →
default" fails on the code — with a registry configured whose call fails,
agent `0x1111…1111` resolves to the default 250 even though the static table
maps that agent to 100: the registry failure skips the static table. -/
theorem c8_registry_failure_skips_static_table :
    (get_reputation repEnvFail (some 0xabc)
        0x1111111111111111111111111111111111111111).1 = 250 ∧
    ((mock_reputations.find?
        (fun p => p.1 == 0x1111111111111111111111111111111111111111)).map
          Prod.snd) = some 100 ∧
    (250 : Nat) ≠ 100 :=
  ⟨rfl, by decide, by norm_num⟩

/-- C7: `get` checks the in-process tier first (returning a decodable hit
without touching the durable tier); on an in-process miss it checks the
durable tier, and a durable hit repopulates the in-process tier before the
value is returned; a durable miss, a durable-tier error, and an absent
durable tier all return `None`; and the call always returns `Ok` — it never
surfaces an error for durable-tier unavailability. -/
theorem c7_get_tier_order {T : Type} (c : CacheService) (now : Nat)
    (decode : String → Option T) (key : String) :
    (∃ r c', c.get now decode key = (Except.ok r, c')) ∧
    (∀ s v, c.memory.get now key = some s → decode s = some v →
      c.get now decode key = (.ok (some v), c)) ∧
    (∀ rs s v, c.memory.get now key = none → c.redis = some rs →
      rs.get now key = .ok (some s) → decode s = some v →
      c.get now decode key =
        (.ok (some v), { c with memory := c.memory.insert now key s })) ∧
    (∀ rs, c.memory.get now key = none → c.redis = some rs →
      rs.get now key = .ok none → c.get now decode key = (.ok none, c)) ∧
    (∀ rs e, c.memory.get now key = none → c.redis = some rs →
      rs.get now key = .error e → c.get now decode key = (.ok none, c)) ∧
    (c.memory.get now key = none → c.redis = none →
      c.get now decode key = (.ok none, c)) := by
  have hred : ∃ r c', c.getFromRedis now decode key = (Except.ok r, c') := by
    unfold CacheService.getFromRedis
    repeat' split
    all_goals exact ⟨_, _, rfl⟩
  refine ⟨?_, ?_, ?_, ?_, ?_, ?_⟩
  · unfold CacheService.get
    rcases hm : c.memory.get now key with _ | s
    · simp only [hm]
      exact hred
    · simp only [hm]
      rcases hd : decode s with _ | v
      · simp only [hd]
        exact hred
      · simp only [hd]
        exact ⟨some v, c, rfl⟩
  · intro s v hm hd
    simp only [CacheService.get, hm, hd]
  · intro rs s v hm hr hg hd
    simp only [CacheService.get, hm, CacheService.getFromRedis, hr, hg, hd]
  · intro rs hm hr hg
    simp only [CacheService.get, hm, CacheService.getFromRedis, hr, hg]
  · intro rs e hm hr hg
    simp only [CacheService.get, hm, CacheService.getFromRedis, hr, hg]
  · intro hm hr
    simp only [CacheService.get, hm, CacheService.getFromRedis, hr]

/-- Witness for C7: a durable hit repopulates the in-process tier (with the
fixed in-process TTL), and an unreachable durable tier yields `Ok(None)`. -/
theorem c7_get_tier_order_witness :
    CacheService.get cacheRedis7 0 decode7 "k" =
      (.ok (some 7), ⟨some ⟨[("k", "7", 100)], [], true⟩, ⟨[("k", ⟨"7", 60⟩)]⟩⟩) ∧
    CacheService.get cacheDown 0 decode7 "k" = (.ok none, cacheDown) :=
  ⟨(c7_get_tier_order cacheRedis7 0 decode7 "k").2.2.1 ⟨[("k", "7", 100)], [], true⟩
      "7" 7 rfl rfl rfl rfl,
   (c7_get_tier_order cacheDown 0 decode7 "k").2.2.2.2.1 ⟨[], [], false⟩
      "connection refused" rfl rfl rfl⟩

/-- C3: with a proof reference present, the checks run in the stated order
and short-circuit on the first failure with the stated outcome: malformed
hash encoding → `InvalidProof`; receipt absent → `VerificationFailed`;
execution unsuccessful → `VerificationFailed`; transaction target not the
asset contract → `VerificationFailed` (wrong contract); no transfer event
log → `InvalidProof` (no transfer event); wrong recipient →
`VerificationFailed`; insufficient amount → `VerificationFailed`; and only
when every check passes is the request accepted. -/
theorem c3_verification_check_order (cfg : X402Config) (env : ChainEnv) :
    (∀ p, parseH256 (trim0xList p.data) = none →
      verify_payment_header cfg env (some p) =
        .err (.InvalidPaymentProof "Invalid tx hash")) ∧
    (∀ p h, parseH256 (trim0xList p.data) = some h → env.getReceipt h = .ok none →
      verify_payment_header cfg env (some p) =
        .err (.PaymentVerificationFailed "Transaction not found")) ∧
    (∀ p h receipt, parseH256 (trim0xList p.data) = some h →
      env.getReceipt h = .ok (some receipt) → receipt.status ≠ some 1 →
      verify_payment_header cfg env (some p) =
        .err (.PaymentVerificationFailed "Transaction failed")) ∧
    (∀ p h receipt tx, parseH256 (trim0xList p.data) = some h →
      env.getReceipt h = .ok (some receipt) → receipt.status = some 1 →
      env.getTransaction h = .ok (some tx) → tx.toAddr ≠ some cfg.usdc_address →
      verify_payment_header cfg env (some p) =
        .err (.PaymentVerificationFailed "Transaction not to USDC contract")) ∧
    (∀ p h receipt tx e, parseH256 (trim0xList p.data) = some h →
      env.getReceipt h = .ok (some receipt) → receipt.status = some 1 →
      env.getTransaction h = .ok (some tx) → tx.toAddr = some cfg.usdc_address →
      parse_usdc_transfer receipt.logs = .error e →
      verify_payment_header cfg env (some p) = .err (.InvalidPaymentProof e)) ∧
    (∀ p h receipt tx transfer, parseH256 (trim0xList p.data) = some h →
      env.getReceipt h = .ok (some receipt) → receipt.status = some 1 →
      env.getTransaction h = .ok (some tx) → tx.toAddr = some cfg.usdc_address →
      parse_usdc_transfer receipt.logs = .ok transfer →
      transfer.toAddr ≠ cfg.recipient_address →
      verify_payment_header cfg env (some p) =
        .err (.PaymentVerificationFailed
          ("Payment to wrong address: " ++ addrDisplay transfer.toAddr))) ∧
    (∀ p h receipt tx transfer q a64, parseH256 (trim0xList p.data) = some h →
      env.getReceipt h = .ok (some receipt) → receipt.status = some 1 →
      env.getTransaction h = .ok (some tx) → tx.toAddr = some cfg.usdc_address →
      parse_usdc_transfer receipt.logs = .ok transfer →
      transfer.toAddr = cfg.recipient_address → cfg.usd_value = some q →
      as_u64 transfer.amount = some a64 → a64 / 10000 < parse_usd_to_cents q →
      verify_payment_header cfg env (some p) =
        .err (.PaymentVerificationFailed ("Insufficient payment: " ++
          toString (a64 / 10000) ++ " < " ++ toString (parse_usd_to_cents q)))) ∧
    (∀ p h receipt tx transfer q a64, parseH256 (trim0xList p.data) = some h →
      env.getReceipt h = .ok (some receipt) → receipt.status = some 1 →
      env.getTransaction h = .ok (some tx) → tx.toAddr = some cfg.usdc_address →
      parse_usdc_transfer receipt.logs = .ok transfer →
      transfer.toAddr = cfg.recipient_address → cfg.usd_value = some q →
      as_u64 transfer.amount = some a64 → ¬(a64 / 10000 < parse_usd_to_cents q) →
      verify_payment_header cfg env (some p) =
        .ok ⟨true, h, "Payment verified", transfer.fromAddr, toString transfer.amount⟩) := by
  refine ⟨?_, ?_, ?_, ?_, ?_, ?_, ?_, ?_⟩
  · intro p hp
    simp [verify_payment_header, hp]
  · intro p h hp hr
    simp [verify_payment_header, verify_transaction, hp, hr]
  · intro p h receipt hp hr hs
    simp [verify_payment_header, verify_transaction, hp, hr, hs]
  · intro p h receipt tx hp hr hs ht hto
    simp [verify_payment_header, verify_transaction, hp, hr, hs, ht, hto]
  · intro p h receipt tx e hp hr hs ht hto hpt
    simp [verify_payment_header, verify_transaction, hp, hr, hs, ht, hto, hpt]
  · intro p h receipt tx transfer hp hr hs ht hto hpt hrec
    simp [verify_payment_header, verify_transaction, hp, hr, hs, ht, hto, hpt, hrec]
  · intro p h receipt tx transfer q a64 hp hr hs ht hto hpt hrec hq ha hlt
    simp [verify_payment_header, verify_transaction, hp, hr, hs, ht, hto, hpt, hrec, hq,
      ha, hlt]
  · intro p h receipt tx transfer q a64 hp hr hs ht hto hpt hrec hq ha hge
    simp [verify_payment_header, verify_transaction, hp, hr, hs, ht, hto, hpt, hrec, hq,
      ha, hge]

/-- Witness for C3: each of the eight outcomes realized on a concrete chain
against the `$0.29` gate. -/
theorem c3_verification_check_order_witness :
    verify_payment_header cfg29 envEmpty (some pBad) =
      .err (.InvalidPaymentProof "Invalid tx hash") ∧
    verify_payment_header cfg29 envEmpty (some p64) =
      .err (.PaymentVerificationFailed "Transaction not found") ∧
    verify_payment_header cfg29 envFailed (some p64) =
      .err (.PaymentVerificationFailed "Transaction failed") ∧
    verify_payment_header cfg29 envWrongContract (some p64) =
      .err (.PaymentVerificationFailed "Transaction not to USDC contract") ∧
    verify_payment_header cfg29 envNoTransfer (some p64) =
      .err (.InvalidPaymentProof "No USDC transfer found in transaction") ∧
    verify_payment_header cfg29 envWrongRecipient (some p64) =
      .err (.PaymentVerificationFailed
        ("Payment to wrong address: " ++ addrDisplay 0x999)) ∧
    verify_payment_header cfg29 envLow (some p64) =
      .err (.PaymentVerificationFailed "Insufficient payment: 27 < 28") ∧
    verify_payment_header cfg29 env29 (some p64) =
      .ok ⟨true, 7, "Payment verified", 0x123, "280000"⟩ := by
  refine ⟨(c3_verification_check_order cfg29 envEmpty).1 pBad (by decide),
    (c3_verification_check_order cfg29 envEmpty).2.1 p64 7 (by decide) rfl,
    (c3_verification_check_order cfg29 envFailed).2.2.1 p64 7 ⟨some 0, []⟩ (by decide)
      rfl (by decide),
    (c3_verification_check_order cfg29 envWrongContract).2.2.2.1 p64 7 receipt29
      ⟨0x123, some 0x999⟩ (by decide) rfl rfl rfl (by decide),
    (c3_verification_check_order cfg29 envNoTransfer).2.2.2.2.1 p64 7 ⟨some 1, []⟩
      ⟨0x123, some 0xdef⟩ "No USDC transfer found in transaction" (by decide) rfl rfl
      rfl rfl rfl,
    (c3_verification_check_order cfg29 envWrongRecipient).2.2.2.2.2.1 p64 7
      ⟨some 1, [⟨[TRANSFER_TOPIC, 0x123, 0x999], [0x04, 0x45, 0xC0]⟩]⟩
      ⟨0x123, some 0xdef⟩ ⟨0x123, 0x999, 280000⟩ (by decide) rfl rfl rfl rfl rfl
      (by decide),
    ?_, ?_⟩
  · have := (c3_verification_check_order cfg29 envLow).2.2.2.2.2.2.1 p64 7
      ⟨some 1, [⟨[TRANSFER_TOPIC, 0x123, 0xabc], [0x04, 0x1E, 0xB0]⟩]⟩
      ⟨0x123, some 0xdef⟩ ⟨0x123, 0xabc, 270000⟩ (29/100) 270000 (by decide) rfl rfl
      rfl rfl rfl rfl rfl rfl (by rw [parse_usd_to_cents_29]; norm_num)
    rw [parse_usd_to_cents_29] at this
    exact this
  · exact (c3_verification_check_order cfg29 env29).2.2.2.2.2.2.2 p64 7 receipt29
      ⟨0x123, some 0xdef⟩ ⟨0x123, 0xabc, 280000⟩ (29/100) 280000 (by decide) rfl rfl
      rfl rfl rfl rfl rfl rfl (by rw [parse_usd_to_cents_29]; norm_num)

/-- C10: once a transfer event has been matched and every earlier check has
passed, the amount conversion is total only below 2^64 smallest units — for
an amount fitting in 64 bits the code compares `floor(amount / 10000)` cents
against the expected charge, and for an amount of 2^64 or more
`U256::as_u64` panics instead of producing a rejection result. -/
theorem c10_as_u64_panic_boundary (cfg : X402Config) (env : ChainEnv) (h : Nat)
    (receipt : TransactionReceipt) (tx : EthTransaction) (transfer : USDCTransfer)
    (q : ℚ) :
    env.getReceipt h = .ok (some receipt) → receipt.status = some 1 →
    env.getTransaction h = .ok (some tx) → tx.toAddr = some cfg.usdc_address →
    parse_usdc_transfer receipt.logs = .ok transfer →
    transfer.toAddr = cfg.recipient_address → cfg.usd_value = some q →
    ((transfer.amount < 2 ^ 64 →
        verify_transaction cfg env h =
          (if transfer.amount / 10000 < parse_usd_to_cents q then
            .ok ⟨false, h,
              "Insufficient payment: " ++ toString (transfer.amount / 10000) ++ " < " ++
                toString (parse_usd_to_cents q), transfer.fromAddr,
              toString transfer.amount⟩
          else
            .ok ⟨true, h, "Payment verified", transfer.fromAddr,
              toString transfer.amount⟩)) ∧
     (2 ^ 64 ≤ transfer.amount → verify_transaction cfg env h = .panic)) := by
  intro hr hs ht hto hpt hrec hq
  constructor
  · intro hb
    have ha : as_u64 transfer.amount = some transfer.amount := by
      unfold as_u64
      rw [if_pos hb]
    simp [verify_transaction, hr, hs, ht, hto, hpt, hrec, hq, ha]
  · intro hb
    have hnb : ¬(transfer.amount < 2 ^ 64) := by omega
    have ha : as_u64 transfer.amount = none := by
      unfold as_u64
      rw [if_neg hnb]
    simp [verify_transaction, hr, hs, ht, hto, hpt, hrec, hq, ha]

/-- Witness for C10: a 2^64-unit transfer panics where a rejection was due;
a 280000-unit transfer is converted to 28 cents and compared normally. -/
theorem c10_as_u64_panic_boundary_witness :
    verify_transaction cfg29 envBig 7 = .panic ∧
    verify_transaction cfg29 env29 7 =
      .ok ⟨true, 7, "Payment verified", 0x123, "280000"⟩ := by
  constructor
  · exact (c10_as_u64_panic_boundary cfg29 envBig 7 receiptBig ⟨0x123, some 0xdef⟩
      ⟨0x123, 0xabc, 18446744073709551616⟩ (29/100) rfl rfl rfl rfl rfl rfl rfl).2
      (by norm_num)
  · have := (c10_as_u64_panic_boundary cfg29 env29 7 receipt29 ⟨0x123, some 0xdef⟩
      ⟨0x123, 0xabc, 280000⟩ (29/100) rfl rfl rfl rfl rfl rfl rfl).1 (by norm_num)
    rw [parse_usd_to_cents_29] at this
    norm_num at this
    exact this

/-- The fetch loop never collects more blocks than it is asked for. -/
theorem fetchLoop_length_le (env : GasEnv) (ns : List Nat) (acc : List EthBlock) :
    (fetchLoop env ns acc).length ≤ acc.length + ns.length := by
  induction ns generalizing acc with
  | nil => simp [fetchLoop]
  | cons n ns ih =>
    simp only [fetchLoop, List.length_cons]
    cases henv : env.getBlock n with
    | ok ob =>
      cases ob with
      | some b =>
        dsimp only
        have h := ih (acc ++ [b])
        simp only [List.length_append, List.length_cons, List.length_nil] at h
        omega
      | none =>
        dsimp only
        have h := ih acc
        omega
    | error e =>
      dsimp only
      split
      · omega
      · have h := ih acc
        omega

/-- C9 (amended): the prediction is computed from the up-to-20 most recent
blocks (`latest-19 ..= latest`, never more than 20 collected), degrading to
fewer on partial data-source failure; it fails (with `"No blocks fetched"`)
exactly when no block at all was fetched, and whenever at least one block
(with a block number) was fetched — even fewer than 10 — a prediction is
produced. -/
theorem c9_gas_prediction_degradation (env : GasEnv) (latest : Nat)
    (hbn : env.blockNumber = .ok latest) :
    (fetch_blocks env (latest - 19) latest).length ≤ 20 ∧
    (fetch_blocks env (latest - 19) latest = [] →
      get_gas_prediction env none = .err (.RpcError "No blocks fetched")) ∧
    (∀ b bn, (fetch_blocks env (latest - 19) latest).getLast? = some b →
      b.number = some bn → (get_gas_prediction env none).isOk = true) := by
  refine ⟨?_, ?_, ?_⟩
  · have h := fetchLoop_length_le env
      (List.range' (latest - 19) (latest + 1 - (latest - 19))) []
    unfold fetch_blocks
    simp only [List.length_range', List.length_nil] at h
    omega
  · intro hempty
    simp [get_gas_prediction, hbn, hempty]
  · intro b bn hlast hnum
    simp only [get_gas_prediction, hbn]
    have hne : (fetch_blocks env (latest - 19) latest).isEmpty = false := by
      cases hfb : fetch_blocks env (latest - 19) latest with
      | nil =>
        rw [hfb] at hlast
        simp at hlast
      | cons x xs => simp
    have hcp : ∃ p, calculate_prediction (fetch_blocks env (latest - 19) latest)
        = some p := by
      unfold calculate_prediction
      rw [hlast]
      dsimp only
      rw [hnum]
      exact ⟨_, rfl⟩
    obtain ⟨p, hp⟩ := hcp
    simp only [hne, hp, Bool.false_eq_true, if_false, VOutcome.isOk]

/-- Witness for C9: on the degraded source `envC9` at most 20 blocks are
used and a prediction is produced. -/
theorem c9_gas_prediction_degradation_witness :
    (fetch_blocks envC9 (19 - 19) 19).length ≤ 20 ∧
    (get_gas_prediction envC9 none).isOk = true :=
  ⟨(c9_gas_prediction_degradation envC9 19 rfl).1,
   (c9_gas_prediction_degradation envC9 19 rfl).2.2 ⟨some 19, some 30000000000⟩ 19
     (by decide) rfl⟩

/-- C9 counterexample: the claim "never from fewer than 10 blocks: when
fewer than 10 blocks are available the operation fails" is refuted — with
only 5 of the 20 most recent blocks available, the code still produces a
prediction (the at-least-10 threshold only governs breaking out of the fetch
loop early; the sole failure condition is zero blocks). -/
theorem c9_prediction_from_five_blocks :
    fetch_blocks envC9 0 19 = blocksC9 ∧
    (fetch_blocks envC9 0 19).length = 5 ∧ (5 : Nat) < 10 ∧
    get_gas_prediction envC9 none = .ok ⟨30, 2, 38, 1, 19, 12⟩ := by
  have hfetch : fetch_blocks envC9 0 19 = blocksC9 := by decide
  have hcalc : calculate_prediction blocksC9 = some ⟨30, 2, 38, 1, 19, 12⟩ := by
    simp only [blocksC9, calculate_prediction, generate_exponential_weights,
      calculate_confidence, sqrtQ]
    norm_num [List.range_succ, List.zip, List.zipWith, List.filterMap, Nat.sqrt_zero,
      Nat.sqrt_one]
  have hbn : envC9.blockNumber = Except.ok 19 := rfl
  refine ⟨hfetch, by rw [hfetch]; rfl, by norm_num, ?_⟩
  simp only [get_gas_prediction, hbn]
  norm_num
  rw [hfetch, hcalc]
  simp [blocksC9]

end QGuard
